import Mathlib

/-!
Verification of the SPRA MRP core (`app.py`).

Modelling conventions of the shallow embedding:
* SQLAlchemy `Float` columns are modelled as exact rationals (`ℚ`);
  `Integer` columns as `ℤ` (ids as `ℕ`).
* `datetime` values are integer seconds since the epoch (`ℤ`);
  `timedelta(days = d)` is `d * 86400` seconds.  `datetime.utcnow()` is
  injected as an explicit `now : ℤ` parameter (the source calls it three
  times inside one request; the calls are treated as one instant).
* Python `//` and `%` on integers are floor division / nonnegative
  remainder for a positive divisor, which coincides with Lean's `/` and
  `%` on `ℤ`; `timedelta.days` likewise floors, giving `/ 86400`.
* The SQLAlchemy session is modelled explicitly: a `Session` carries the
  last committed database state and the current in-session view.  Writes
  (`delete`, `add`) act on the in-session view; `db.session.commit()`
  publishes it; returning from a request without committing rolls the
  session back (Flask-SQLAlchemy removes, and thereby rolls back, the
  scoped session at request teardown).
* Database-assigned row ids of freshly inserted `MRPPlan` rows are not
  modelled (they are set to 0); no claim depends on them.
-/

namespace SPRA

/-- `Component` row (models.py): inventory, stock bounds, lead time, cost, MOQ. -/
structure Component where
  id : Nat
  current_inventory : ℚ
  min_stock_level : ℚ
  max_stock_level : ℚ
  lead_time_days : ℤ
  unit_cost : ℚ
  minimum_order_quantity : ℚ
deriving Repr, DecidableEq

/-- `HornTypeComponent` row: one BOM entry of a horn type. -/
structure HornTypeComponent where
  component_id : Nat
  quantity_per_horn : ℚ
deriving Repr, DecidableEq

/-- `HornType` row together with its `bom_components` relationship. -/
structure HornType where
  id : Nat
  bom_components : List HornTypeComponent
deriving Repr, DecidableEq

/-- `OrderLineItem` row: a horn type and an integer quantity. -/
structure OrderLineItem where
  horn_type_id : Nat
  quantity : ℤ
deriving Repr, DecidableEq

/-- `Order` row with its `line_items` relationship.  `order_date` is
nullable in the source (`order.order_date or datetime.utcnow()`). -/
structure Order where
  id : Nat
  order_date : Option ℤ
  deadline : ℤ
  line_items : List OrderLineItem
deriving Repr, DecidableEq

/-- `Order.total_quantity` property: sum of line-item quantities. -/
def Order.total_quantity (o : Order) : ℤ :=
  (o.line_items.map (fun li => li.quantity)).sum

/-- `ProductionConfig` singleton row. -/
structure ProductionConfig where
  daily_production_capacity : ℤ
  working_days_per_week : ℤ
  safety_stock_days : ℤ
deriving Repr, DecidableEq

/-- `MRPPlan` row. -/
structure MRPPlan where
  id : Nat
  order_id : Nat
  component_id : Nat
  total_required : ℚ
  current_inventory : ℚ
  net_requirement : ℚ
  order_quantity : ℚ
  order_date : ℤ
  expected_delivery : ℤ
  estimated_cost : ℚ
  status : String
deriving Repr, DecidableEq

/-- `InventoryTransaction` row. -/
structure InventoryTransaction where
  component_id : Nat
  transaction_type : String
  quantity : ℚ
  balance_after : ℚ
  reference : String
  notes : String
deriving Repr, DecidableEq

/-- `calculate_working_days` (app.py:832-839).  Dates are in seconds, so
`(end_date - start_date).days` is floor division by 86400; Python `// 7`
and `% 7` agree with Lean `/` and `%` on `ℤ` for these positive divisors. -/
def calculate_working_days (start_date end_date working_days_per_week : ℤ) : ℤ :=
  let total_days := (end_date - start_date) / 86400
  let weeks := total_days / 7
  let remaining_days := total_days % 7
  weeks * working_days_per_week + min remaining_days working_days_per_week

/-- One `+=` step of the BOM-explosion loop (app.py:625-628): adds
`quantity * quantity_per_horn` to the accumulated requirement of
`bom_item.component_id`. -/
def bumpRequirement (quantity : ℚ) (acc : Nat → ℚ) (bom_item : HornTypeComponent) : Nat → ℚ :=
  Function.update acc bom_item.component_id
    (acc bom_item.component_id + quantity * bom_item.quantity_per_horn)

/-- The inner loop of BOM explosion for one line item; a line item whose
horn type is absent is skipped (`if not horn_type: continue`). -/
def explodeLineItem (horn_types : Nat → Option HornType) (acc : Nat → ℚ)
    (line_item : OrderLineItem) : Nat → ℚ :=
  match horn_types line_item.horn_type_id with
  | none => acc
  | some horn_type =>
      horn_type.bom_components.foldl (bumpRequirement (line_item.quantity : ℚ)) acc

/-- `component_requirements` as a total function (the values of the
`defaultdict(float)` built in app.py:619-628). -/
def component_requirements (horn_types : Nat → Option HornType)
    (line_items : List OrderLineItem) : Nat → ℚ :=
  line_items.foldl (explodeLineItem horn_types) (fun _ => 0)

/-- Insert a key at the back if it is not already present (the key-set
behaviour of `defaultdict` indexing, in insertion order). -/
def addKey (keys : List Nat) (k : Nat) : List Nat :=
  if k ∈ keys then keys else keys ++ [k]

/-- The keys of the `component_requirements` dict, in insertion order.
A key is created as soon as it is indexed, even when the accumulated
value is 0; `if not component_requirements` (app.py:630) tests exactly
this list for emptiness. -/
def requirementKeys (horn_types : Nat → Option HornType)
    (line_items : List OrderLineItem) : List Nat :=
  line_items.foldl
    (fun keys li =>
      match horn_types li.horn_type_id with
      | none => keys
      | some horn_type =>
          horn_type.bom_components.foldl (fun ks b => addKey ks b.component_id) keys)
    []

/-- The per-component body of the planning loop (app.py:659-699): netting,
MOQ rounding, max-stock clamp, back-scheduling, cost.  Transcribed
literally — in particular the max-stock clamp has no floor at 0. -/
def computePlan (config : ProductionConfig) (component : Component)
    (total_required : ℚ) (production_start now : ℤ) (order_id : Nat) : MRPPlan :=
  let net_requirement := max 0 (total_required - component.current_inventory)
  let rounded : ℚ :=
    if 0 < net_requirement then
      if 0 < component.minimum_order_quantity then
        (⌈net_requirement / component.minimum_order_quantity⌉ : ℚ) *
          component.minimum_order_quantity
      else net_requirement
    else 0
  let order_quantity : ℚ :=
    if 0 < component.max_stock_level then
      let max_order := component.max_stock_level - component.current_inventory
      if max_order < rounded then max_order else rounded
    else rounded
  let days_before_production := component.lead_time_days + config.safety_stock_days
  let order_date_raw := production_start - days_before_production * 86400
  let order_date_calculated := if order_date_raw < now then now else order_date_raw
  let expected_delivery := order_date_calculated + component.lead_time_days * 86400
  { id := 0
    order_id := order_id
    component_id := component.id
    total_required := total_required
    current_inventory := component.current_inventory
    net_requirement := net_requirement
    order_quantity := order_quantity
    order_date := order_date_calculated
    expected_delivery := expected_delivery
    estimated_cost := order_quantity * component.unit_cost
    status := "planned" }

/-- The persisted tables the MRP core reads and writes.  Horn types and
orders are read-only to these operations and are passed separately. -/
structure DBState where
  components : Nat → Option Component
  plans : List MRPPlan
  transactions : List InventoryTransaction

/-- A SQLAlchemy session: the last committed state and the current
in-session view (committed state plus uncommitted writes). -/
structure Session where
  committed : DBState
  current : DBState

/-- `db.session.commit()`: publish the in-session view. -/
def commitSession (s : Session) : Session :=
  { committed := s.current, current := s.current }

/-- Request teardown without a commit: Flask-SQLAlchemy removes the scoped
session, rolling back uncommitted writes. -/
def rollbackSession (s : Session) : Session :=
  { committed := s.committed, current := s.committed }

/-- Error responses of `generate_mrp` (the 400-responses of app.py:616-654). -/
inductive GenError where
  | noConfig
  | emptyDemand
  | infeasibleSchedule
  | capacityExceeded (required_days : ℤ) (available_days : ℤ)
deriving Repr, DecidableEq

/-- Outcome of `generate_mrp`: the 200-response carries the new plans. -/
inductive GenResult where
  | ok (plans : List MRPPlan)
  | error (e : GenError)
deriving Repr, DecidableEq

/-- The plans of a successful result (empty list on error). -/
def GenResult.plansOf : GenResult → List MRPPlan
  | .ok plans => plans
  | .error _ => []

/-- `generate_mrp` (app.py:609-722).  The config row and the order are the
values read by `ProductionConfig.query.first()` and `get_or_404`; the
components table is read through the session.  The `delete()` of the
order's old plans (app.py:636) is staged in the session and only becomes
visible in the committed state when the success path commits; every error
path returns without committing, so teardown rolls the session back. -/
def generate_mrp (sess : Session) (horn_types : Nat → Option HornType)
    (config? : Option ProductionConfig) (order : Order) (order_id : Nat)
    (now : ℤ) : Session × GenResult :=
  match config? with
  | none => (rollbackSession sess, .error .noConfig)
  | some config =>
    let reqs := component_requirements horn_types order.line_items
    let keys := requirementKeys horn_types order.line_items
    if keys = [] then (rollbackSession sess, .error .emptyDemand)
    else
      let components := keys.filterMap sess.current.components
      let sess1 : Session :=
        { sess with current :=
            { sess.current with
                plans := sess.current.plans.filter (fun p => p.order_id ≠ order_id) } }
      let order_date := order.order_date.getD now
      let working_days :=
        calculate_working_days order_date order.deadline config.working_days_per_week
      if working_days ≤ 0 then (rollbackSession sess1, .error .infeasibleSchedule)
      else
        let total_quantity := order.total_quantity
        let daily_production := ⌈(total_quantity : ℚ) / (working_days : ℚ)⌉
        if config.daily_production_capacity < daily_production then
          (rollbackSession sess1,
            .error (.capacityExceeded
              ⌈(total_quantity : ℚ) / (config.daily_production_capacity : ℚ)⌉
              working_days))
        else
          let production_start := order_date + config.safety_stock_days * 86400
          let new_plans := components.map
            (fun c => computePlan config c (reqs c.id) production_start now order_id)
          let sess2 : Session :=
            { sess1 with current :=
                { sess1.current with plans := sess1.current.plans ++ new_plans } }
          (commitSession sess2, .ok new_plans)

/-- `update_mrp_status` (app.py:733-757).  `new_status = none` models a
request body without a `status` key (`data.get('status', plan.status)`
keeps the stored status).  Returns `none` only when `get_or_404` fails;
the function commits unconditionally, so the committed state is returned
directly. -/
def update_mrp_status (db : DBState) (plan_id : Nat) (new_status : Option String) :
    Option (DBState × MRPPlan) :=
  match db.plans.find? (fun p => p.id = plan_id) with
  | none => none
  | some plan =>
    let status := new_status.getD plan.status
    let plan1 := { plan with status := status }
    let db1 : DBState :=
      { db with plans := db.plans.map (fun p => if p.id = plan_id then plan1 else p) }
    if status = "received" then
      match db1.components plan.component_id with
      | some component =>
        let component1 :=
          { component with
              current_inventory := component.current_inventory + plan.order_quantity }
        let txn : InventoryTransaction :=
          { component_id := component.id
            transaction_type := "receipt"
            quantity := plan.order_quantity
            balance_after := component1.current_inventory
            reference := "MRP-" ++ toString plan.id
            notes := "Received order for Order #" ++ toString plan.order_id }
        some
          ({ db1 with
              components := Function.update db1.components plan.component_id (some component1)
              transactions := db1.transactions ++ [txn] }, plan1)
      | none => some (db1, plan1)
    else some (db1, plan1)

/-- Modelled from the spec (§4.1), for comparison with the source fold:
the contribution of one line item to component `cid`'s aggregate
requirement — line-item quantity times the `quantity_per_horn` of `cid`
in that line item's BOM (0 when the horn type is absent or its BOM does
not mention `cid`). -/
def specLineContribution (horn_types : Nat → Option HornType) (cid : Nat)
    (li : OrderLineItem) : ℚ :=
  match horn_types li.horn_type_id with
  | none => 0
  | some horn_type =>
      (li.quantity : ℚ) *
        ((horn_type.bom_components.filter (fun b => b.component_id = cid)).map
          (fun b => b.quantity_per_horn)).sum

theorem foldl_bumpRequirement (l : List HornTypeComponent) (q : ℚ)
    (acc : Nat → ℚ) (cid : Nat) :
    (l.foldl (bumpRequirement q) acc) cid
      = acc cid + q * ((l.filter (fun b => b.component_id = cid)).map
          (fun b => b.quantity_per_horn)).sum := by
  induction l generalizing acc with
  | nil => simp
  | cons b l ih =>
    simp only [List.foldl_cons, List.filter_cons]
    rw [ih]
    by_cases h : b.component_id = cid
    · subst h
      simp [bumpRequirement, Function.update_apply]
      ring
    · have h' : cid ≠ b.component_id := fun hc => h hc.symm
      simp [bumpRequirement, Function.update_apply, h, h']

theorem foldl_explodeLineItem (horn_types : Nat → Option HornType)
    (items : List OrderLineItem) (acc : Nat → ℚ) (cid : Nat) :
    (items.foldl (explodeLineItem horn_types) acc) cid
      = acc cid + (items.map (specLineContribution horn_types cid)).sum := by
  induction items generalizing acc with
  | nil => simp
  | cons li items ih =>
    simp only [List.foldl_cons, List.map_cons, List.sum_cons]
    rw [ih]
    cases hht : horn_types li.horn_type_id with
    | none =>
      simp only [explodeLineItem, specLineContribution, hht]
      ring
    | some horn_type =>
      simp only [explodeLineItem, specLineContribution, hht]
      rw [foldl_bumpRequirement]
      ring

/-- Example order for the spec's §8 BOM-explosion test: horn type 10 needs
2 of component 1 per unit, horn type 20 needs 1 of component 1 per unit. -/
def exC5HornTypes : Nat → Option HornType := fun i =>
  if i = 10 then some { id := 10, bom_components := [{ component_id := 1, quantity_per_horn := 2 }] }
  else if i = 20 then some { id := 20, bom_components := [{ component_id := 1, quantity_per_horn := 1 }] }
  else none

def exC5Items : List OrderLineItem :=
  [{ horn_type_id := 10, quantity := 100 }, { horn_type_id := 20, quantity := 50 }]

/-- C5: BOM explosion aggregates, per component, the sum over line items
of line-item quantity × that component's quantity_per_horn in the line
item's BOM, accumulating across product types; line items whose product
type has no BOM entries (or is absent) contribute zero.  In particular
100 units needing 2× component 1 plus 50 units needing 1× yield 250. -/
theorem claim_C5 :
    (∀ (horn_types : Nat → Option HornType) (line_items : List OrderLineItem) (cid : Nat),
      component_requirements horn_types line_items cid
        = (line_items.map (specLineContribution horn_types cid)).sum)
    ∧ component_requirements exC5HornTypes exC5Items 1 = 250 := by
  constructor
  · intro horn_types line_items cid
    unfold component_requirements
    rw [foldl_explodeLineItem]
    simp
  · unfold component_requirements exC5Items
    simp only [List.foldl_cons, List.foldl_nil]
    unfold explodeLineItem exC5HornTypes
    norm_num [bumpRequirement, Function.update_apply]

/-- C8: for end after start and 1 ≤ W ≤ 7, `calculate_working_days` is
`full_weeks × W + min(remainder, W)` where `total_days` is the truncated
whole number of days between the dates, `full_weeks = total_days div 7`,
`remainder = total_days mod 7`; in particular a 7-day window with W = 6
gives 6 working days and a 3-day window gives 3. -/
theorem claim_C8 (s e W : ℤ) (h1 : s < e) (h2 : 1 ≤ W) (h3 : W ≤ 7) :
    calculate_working_days s e W
      = ((e - s) / 86400 / 7) * W + min ((e - s) / 86400 % 7) W
    ∧ calculate_working_days s (s + 7 * 86400) 6 = 6
    ∧ calculate_working_days s (s + 3 * 86400) 6 = 3 := by
  refine ⟨rfl, ?_, ?_⟩ <;> · simp only [calculate_working_days]; omega

/-- Witness for C8 at start 0, end 3 days later, W = 6. -/
theorem claim_C8_witness :
    (0 : ℤ) < 3 * 86400 ∧
      (calculate_working_days 0 (3 * 86400) 6
        = ((3 * 86400 - 0) / 86400 / 7) * 6 + min ((3 * 86400 - 0) / 86400 % 7) 6
      ∧ calculate_working_days 0 (0 + 7 * 86400) 6 = 6
      ∧ calculate_working_days 0 (0 + 3 * 86400) 6 = 3) :=
  ⟨by decide, claim_C8 0 (3 * 86400) 6 (by decide) (by decide) (by decide)⟩

set_option maxRecDepth 10000

/-! Concrete scenario for C1: component 1 holds 100 units of inventory
against a max stock level of 50; the order needs 10 of it. -/

def exC1Component : Component :=
  { id := 1, current_inventory := 100, min_stock_level := 0, max_stock_level := 50,
    lead_time_days := 0, unit_cost := 2, minimum_order_quantity := 0 }

def exC1DB : DBState :=
  { components := fun i => if i = 1 then some exC1Component else none,
    plans := [], transactions := [] }

def exC1Sess : Session := { committed := exC1DB, current := exC1DB }

def exC1HornTypes : Nat → Option HornType := fun i =>
  if i = 5 then some { id := 5, bom_components := [{ component_id := 1, quantity_per_horn := 1 }] }
  else none

def exC1Order : Order :=
  { id := 9, order_date := some 0, deadline := 7 * 86400,
    line_items := [{ horn_type_id := 5, quantity := 10 }] }

def exC1Config : ProductionConfig :=
  { daily_production_capacity := 1000, working_days_per_week := 7, safety_stock_days := 0 }

/-- C1: the source persists a plan with `order_quantity = −50 < 0` when
inventory (100) already exceeds the positive max stock level (50): the
max-stock clamp of app.py:671-674 has no floor at 0, so the claimed
invariants `order_quantity ≥ 0` and "floored at 0 on negative headroom"
fail on the code (the spec flags this as a latent defect to correct). -/
theorem claim_C1 :
    ((generate_mrp exC1Sess exC1HornTypes (some exC1Config) exC1Order 9 0).2.plansOf.map
        (fun p => p.order_quantity)) = [-50]
    ∧ ((-50 : ℚ) < 0)
    ∧ (0 : ℚ) < exC1Component.max_stock_level
    ∧ exC1Component.max_stock_level - exC1Component.current_inventory < 0 := by
  have hceil : ⌈(10 : ℚ) / 7⌉ = 2 := by
    rw [Int.ceil_eq_iff]; constructor <;> norm_num
  refine ⟨?_, by norm_num, by norm_num [exC1Component], by norm_num [exC1Component]⟩
  norm_num [generate_mrp, exC1Sess, exC1HornTypes, exC1Config, exC1Order, exC1DB, exC1Component,
    requirementKeys, addKey, component_requirements, explodeLineItem, bumpRequirement,
    Function.update_apply, calculate_working_days, Order.total_quantity, computePlan,
    GenResult.plansOf, hceil, List.filterMap_cons, List.filterMap_nil]

/-! Concrete scenario for C2's counterexample: component 1 has MOQ 7,
max stock 12, no inventory; the order needs 10, so the MOQ rounding gives
14, which the max-stock clamp then cuts to 12 — not a multiple of 7. -/

def exC2Component : Component :=
  { id := 1, current_inventory := 0, min_stock_level := 0, max_stock_level := 12,
    lead_time_days := 0, unit_cost := 1, minimum_order_quantity := 7 }

def exC2DB : DBState :=
  { components := fun i => if i = 1 then some exC2Component else none,
    plans := [], transactions := [] }

def exC2Sess : Session := { committed := exC2DB, current := exC2DB }

def exC2HornTypes : Nat → Option HornType := fun i =>
  if i = 5 then some { id := 5, bom_components := [{ component_id := 1, quantity_per_horn := 1 }] }
  else none

def exC2Order : Order :=
  { id := 9, order_date := some 0, deadline := 7 * 86400,
    line_items := [{ horn_type_id := 5, quantity := 10 }] }

def exC2Config : ProductionConfig :=
  { daily_production_capacity := 1000, working_days_per_week := 7, safety_stock_days := 0 }

/-- C2 counterexample: with MOQ = 7 > 0 and net_requirement = 10 > 0 the
persisted order_quantity is 12 — the max-stock clamp overrides the MOQ
rounding, so it is neither `ceil(net/MOQ) × MOQ = 14` nor any whole
multiple of the MOQ. -/
theorem claim_C2_counterexample :
    ((generate_mrp exC2Sess exC2HornTypes (some exC2Config) exC2Order 9 0).2.plansOf.map
        (fun p => (p.net_requirement, p.order_quantity))) = [(10, 12)]
    ∧ (12 : ℚ) ≠ (⌈(10 : ℚ) / 7⌉ : ℚ) * 7
    ∧ ¬ ∃ k : ℤ, (12 : ℚ) = (k : ℚ) * 7 := by
  have hceil : ⌈(10 : ℚ) / 7⌉ = 2 := by
    rw [Int.ceil_eq_iff]; constructor <;> norm_num
  refine ⟨?_, by rw [hceil]; norm_num, ?_⟩
  · norm_num [generate_mrp, exC2Sess, exC2HornTypes, exC2Config, exC2Order, exC2DB, exC2Component,
      requirementKeys, addKey, component_requirements, explodeLineItem, bumpRequirement,
      Function.update_apply, calculate_working_days, Order.total_quantity, computePlan,
      GenResult.plansOf, hceil, List.filterMap_cons, List.filterMap_nil]
  · rintro ⟨k, hk⟩
    have hk' : (k * 7 : ℤ) = 12 := by exact_mod_cast hk.symm
    omega

/-- C2 (amended): with MOQ > 0 and net_requirement > 0, the persisted
order_quantity equals `ceil(net / MOQ) × MOQ`, a non-negative whole
multiple of the MOQ, provided the max-stock cap does not bind (either
`max_stock_level ≤ 0`, or the rounded quantity fits under
`max_stock_level − current_inventory`). -/
theorem claim_C2_amended (config : ProductionConfig) (component : Component)
    (total_required : ℚ) (production_start now : ℤ) (order_id : Nat)
    (hmoq : 0 < component.minimum_order_quantity)
    (hnet : component.current_inventory < total_required)
    (hcap : component.max_stock_level ≤ 0 ∨
      (⌈(total_required - component.current_inventory) / component.minimum_order_quantity⌉ : ℚ) *
          component.minimum_order_quantity
        ≤ component.max_stock_level - component.current_inventory) :
    (computePlan config component total_required production_start now order_id).order_quantity
        = (⌈(total_required - component.current_inventory) / component.minimum_order_quantity⌉ : ℚ) *
            component.minimum_order_quantity
      ∧ 0 ≤ (computePlan config component total_required production_start now order_id).order_quantity
      ∧ ∃ k : ℤ,
          (computePlan config component total_required production_start now order_id).order_quantity
            = (k : ℚ) * component.minimum_order_quantity := by
  have hsub : 0 < total_required - component.current_inventory := by linarith
  have hmax : max 0 (total_required - component.current_inventory)
      = total_required - component.current_inventory := max_eq_right hsub.le
  have hcpos : (0 : ℚ) ≤
      (⌈(total_required - component.current_inventory) / component.minimum_order_quantity⌉ : ℚ) *
        component.minimum_order_quantity := by
    have h1 : 0 < ⌈(total_required - component.current_inventory) /
        component.minimum_order_quantity⌉ := Int.ceil_pos.mpr (div_pos hsub hmoq)
    have h2 : (0 : ℚ) ≤
        (⌈(total_required - component.current_inventory) /
          component.minimum_order_quantity⌉ : ℚ) := by exact_mod_cast h1.le
    exact mul_nonneg h2 hmoq.le
  simp only [computePlan, hmax]
  rw [if_pos hsub, if_pos hmoq]
  split_ifs with h1 h2
  · exfalso
    rcases hcap with h | h
    · exact absurd h1 (not_lt.mpr h)
    · exact absurd h2 (not_lt.mpr h)
  · exact ⟨rfl, hcpos, _, rfl⟩
  · exact ⟨rfl, hcpos, _, rfl⟩

/-- Witness for the amended C2: inventory 0, requirement 10, MOQ 7, no max
stock level configured; the plan orders `ceil(10/7) × 7`. -/
theorem claim_C2_amended_witness :
    (computePlan exC1Config
        { id := 1, current_inventory := 0, min_stock_level := 0, max_stock_level := 0,
          lead_time_days := 0, unit_cost := 1, minimum_order_quantity := 7 }
        10 0 0 9).order_quantity = (⌈((10 : ℚ) - 0) / 7⌉ : ℚ) * 7
    ∧ 0 ≤ (computePlan exC1Config
        { id := 1, current_inventory := 0, min_stock_level := 0, max_stock_level := 0,
          lead_time_days := 0, unit_cost := 1, minimum_order_quantity := 7 }
        10 0 0 9).order_quantity
    ∧ ∃ k : ℤ, (computePlan exC1Config
        { id := 1, current_inventory := 0, min_stock_level := 0, max_stock_level := 0,
          lead_time_days := 0, unit_cost := 1, minimum_order_quantity := 7 }
        10 0 0 9).order_quantity = (k : ℚ) * 7 :=
  claim_C2_amended exC1Config _ 10 0 0 9 (by norm_num) (by norm_num) (Or.inl (by norm_num))

/-! Concrete scenario for C3: component 1 holds 200 units against a max
stock level of 80; the order needs only 5, so net_requirement = 0, yet the
persisted order_quantity is −120 rather than the claimed 0. -/

def exC3Component : Component :=
  { id := 1, current_inventory := 200, min_stock_level := 0, max_stock_level := 80,
    lead_time_days := 0, unit_cost := 1, minimum_order_quantity := 0 }

def exC3DB : DBState :=
  { components := fun i => if i = 1 then some exC3Component else none,
    plans := [], transactions := [] }

def exC3Sess : Session := { committed := exC3DB, current := exC3DB }

def exC3HornTypes : Nat → Option HornType := fun i =>
  if i = 5 then some { id := 5, bom_components := [{ component_id := 1, quantity_per_horn := 1 }] }
  else none

def exC3Order : Order :=
  { id := 9, order_date := some 0, deadline := 7 * 86400,
    line_items := [{ horn_type_id := 5, quantity := 5 }] }

/-- C3: the generated plan set has one plan per distinct component with
`net_requirement = max(0, total_required − inventory)`, but the conjunct
"order_quantity = 0 whenever net_requirement = 0" fails on the code: with
net_requirement = 0 and inventory above the positive max stock level, the
unfloored clamp persists order_quantity = −120 ≠ 0. -/
theorem claim_C3 :
    ((generate_mrp exC3Sess exC3HornTypes (some exC1Config) exC3Order 9 0).2.plansOf.map
        (fun p => (p.net_requirement, p.order_quantity))) = [(0, -120)]
    ∧ ((-120 : ℚ) ≠ 0) := by
  have hceil : ⌈(5 : ℚ) / 7⌉ = 1 := by
    rw [Int.ceil_eq_iff]; constructor <;> norm_num
  refine ⟨?_, by norm_num⟩
  norm_num [generate_mrp, exC3Sess, exC3HornTypes, exC1Config, exC3Order, exC3DB, exC3Component,
    requirementKeys, addKey, component_requirements, explodeLineItem, bumpRequirement,
    Function.update_apply, calculate_working_days, Order.total_quantity, computePlan,
    GenResult.plansOf, hceil, List.filterMap_cons, List.filterMap_nil]

/-- C4: whenever `generate_mrp` answers with an error, the committed plan
table is exactly what it was before the call — the staged delete of the
order's old plans is never committed on an error path, so plan generation
is all-or-nothing. -/
theorem claim_C4 (sess : Session) (horn_types : Nat → Option HornType)
    (config? : Option ProductionConfig) (order : Order) (order_id : Nat) (now : ℤ)
    (e : GenError)
    (h : (generate_mrp sess horn_types config? order order_id now).2 = .error e) :
    (generate_mrp sess horn_types config? order order_id now).1.committed.plans
      = sess.committed.plans := by
  cases config? with
  | none => rfl
  | some config =>
    revert h
    simp only [generate_mrp]
    split
    · intro _; rfl
    · split
      · intro _; rfl
      · split
        · intro _; rfl
        · intro h; simp at h

/-! Concrete scenario for C4's witness: the committed state already holds
a plan for order 9, and the order's deadline equals its creation date, so
generation fails the working-days check after staging the delete. -/

def exC4Plan : MRPPlan :=
  { id := 11, order_id := 9, component_id := 1, total_required := 1, current_inventory := 0,
    net_requirement := 1, order_quantity := 1, order_date := 0, expected_delivery := 0,
    estimated_cost := 1, status := "planned" }

def exC4DB : DBState :=
  { components := fun _ => none, plans := [exC4Plan], transactions := [] }

def exC4Sess : Session := { committed := exC4DB, current := exC4DB }

def exC4HornTypes : Nat → Option HornType := fun i =>
  if i = 5 then some { id := 5, bom_components := [{ component_id := 1, quantity_per_horn := 1 }] }
  else none

def exC4Order : Order :=
  { id := 9, order_date := some 0, deadline := 0,
    line_items := [{ horn_type_id := 5, quantity := 1 }] }

/-- Witness for C4: the infeasible-schedule failure leaves the previously
persisted plan set for order 9 untouched. -/
theorem claim_C4_witness :
    (generate_mrp exC4Sess exC4HornTypes (some exC1Config) exC4Order 9 0).2
        = .error .infeasibleSchedule
    ∧ (generate_mrp exC4Sess exC4HornTypes (some exC1Config) exC4Order 9 0).1.committed.plans
        = exC4Sess.committed.plans := by
  have h : (generate_mrp exC4Sess exC4HornTypes (some exC1Config) exC4Order 9 0).2
      = .error .infeasibleSchedule := by
    norm_num [generate_mrp, exC4Sess, exC4HornTypes, exC1Config, exC4Order, exC4DB,
      requirementKeys, addKey, calculate_working_days]
  exact ⟨h, claim_C4 exC4Sess exC4HornTypes (some exC1Config) exC4Order 9 0
    .infeasibleSchedule h⟩

/-- C6: when `ceil(Q / W) > C` the generation is rejected with the
remediation data `required_days = ceil(Q / C)` and `available_days = W`,
and nothing is committed (the session is rolled back). -/
theorem claim_C6 (sess : Session) (horn_types : Nat → Option HornType)
    (config : ProductionConfig) (order : Order) (order_id : Nat) (now : ℤ)
    (hk : requirementKeys horn_types order.line_items ≠ [])
    (hw : ¬ calculate_working_days (order.order_date.getD now) order.deadline
        config.working_days_per_week ≤ 0)
    (hc : config.daily_production_capacity <
      ⌈(order.total_quantity : ℚ) /
        ((calculate_working_days (order.order_date.getD now) order.deadline
          config.working_days_per_week : ℤ) : ℚ)⌉) :
    generate_mrp sess horn_types (some config) order order_id now
      = (rollbackSession sess,
         .error (.capacityExceeded
           ⌈(order.total_quantity : ℚ) / ((config.daily_production_capacity : ℤ) : ℚ)⌉
           (calculate_working_days (order.order_date.getD now) order.deadline
             config.working_days_per_week))) := by
  simp only [generate_mrp]
  rw [if_neg hk, if_neg hw, if_pos hc]
  rfl

/-! Concrete scenario for C6's witness: 200,000 units, 50 working days
(deadline 50 days out, 7-day weeks), capacity 3,000/day. -/

def exC6DB : DBState := { components := fun _ => none, plans := [], transactions := [] }

def exC6Sess : Session := { committed := exC6DB, current := exC6DB }

def exC6HornTypes : Nat → Option HornType := fun i =>
  if i = 5 then some { id := 5, bom_components := [{ component_id := 1, quantity_per_horn := 1 }] }
  else none

def exC6Order : Order :=
  { id := 3, order_date := some 0, deadline := 50 * 86400,
    line_items := [{ horn_type_id := 5, quantity := 200000 }] }

def exC6Config : ProductionConfig :=
  { daily_production_capacity := 3000, working_days_per_week := 7, safety_stock_days := 0 }

/-- Witness for C6: required_daily = ceil(200000/50) = 4000 exceeds 3000,
and the response carries required_days = 67 and available_days = 50. -/
theorem claim_C6_witness :
    (generate_mrp exC6Sess exC6HornTypes (some exC6Config) exC6Order 3 0).2
      = .error (.capacityExceeded 67 50)
    ∧ ⌈(200000 : ℚ) / 50⌉ = 4000 := by
  have hW : calculate_working_days (exC6Order.order_date.getD 0) exC6Order.deadline
      exC6Config.working_days_per_week = 50 := by decide
  have hQ : ((exC6Order.total_quantity : ℤ) : ℚ) = 200000 := by
    norm_num [exC6Order, Order.total_quantity]
  have h4000 : ⌈(200000 : ℚ) / 50⌉ = 4000 := by
    rw [Int.ceil_eq_iff]; constructor <;> norm_num
  have h67 : ⌈(200000 : ℚ) / 3000⌉ = 67 := by
    rw [Int.ceil_eq_iff]; constructor <;> norm_num
  have hc : exC6Config.daily_production_capacity <
      ⌈(exC6Order.total_quantity : ℚ) /
        ((calculate_working_days (exC6Order.order_date.getD 0) exC6Order.deadline
          exC6Config.working_days_per_week : ℤ) : ℚ)⌉ := by
    rw [hW]
    push_cast [hQ]
    rw [h4000]
    norm_num [exC6Config]
  have h := claim_C6 exC6Sess exC6HornTypes exC6Config exC6Order 3 0
    (by decide) (by rw [hW]; decide) hc
  rw [h]
  refine ⟨?_, h4000⟩
  have : ((exC6Config.daily_production_capacity : ℤ) : ℚ) = 3000 := by
    norm_num [exC6Config]
  simp only [hW, hQ, this, h67]

/-- Inversion of the success path of `generate_mrp`: a 200-response's
plans are exactly one `computePlan` per component row matching a key of
the exploded demand, all sharing the same production start. -/
theorem generate_mrp_ok_plans (sess : Session) (horn_types : Nat → Option HornType)
    (config : ProductionConfig) (order : Order) (order_id : Nat) (now : ℤ)
    (plans : List MRPPlan)
    (h : (generate_mrp sess horn_types (some config) order order_id now).2 = .ok plans) :
    plans = ((requirementKeys horn_types order.line_items).filterMap
        sess.current.components).map
      (fun c => computePlan config c
        (component_requirements horn_types order.line_items c.id)
        (order.order_date.getD now + config.safety_stock_days * 86400) now order_id) := by
  revert h
  simp only [generate_mrp]
  split
  · intro h; simp at h
  · split
    · intro h; simp at h
    · split
      · intro h; simp at h
      · intro h
        simp only [GenResult.ok.injEq] at h
        exact h.symm

/-- C7: every plan of a successful generation is back-scheduled from the
shared `production_start = order_date + safety_stock_days` using the lead
time of its own component (`p.component_id = c.id`): its order date is
`production_start − (lead_time + safety_stock) days` clamped up to `now`,
and its expected delivery is its order date plus that component's lead
time — independently per component. -/
theorem claim_C7 (sess : Session) (horn_types : Nat → Option HornType)
    (config : ProductionConfig) (order : Order) (order_id : Nat) (now : ℤ)
    (plans : List MRPPlan)
    (h : (generate_mrp sess horn_types (some config) order order_id now).2 = .ok plans) :
    ∀ p ∈ plans, ∃ c : Component,
      (∃ k ∈ requirementKeys horn_types order.line_items,
        sess.current.components k = some c)
      ∧ p.component_id = c.id
      ∧ p.order_date
          = max ((order.order_date.getD now + config.safety_stock_days * 86400)
              - (c.lead_time_days + config.safety_stock_days) * 86400) now
      ∧ p.expected_delivery = p.order_date + c.lead_time_days * 86400 := by
  intro p hp
  rw [generate_mrp_ok_plans sess horn_types config order order_id now plans h] at hp
  obtain ⟨c, hc, rfl⟩ := List.mem_map.mp hp
  obtain ⟨k, hk, hck⟩ := List.mem_filterMap.mp hc
  refine ⟨c, ⟨k, hk, hck⟩, rfl, ?_, ?_⟩
  · simp only [computePlan]
    split_ifs with hlt
    · exact (max_eq_right hlt.le).symm
    · exact (max_eq_left (not_lt.mp hlt)).symm
  · rfl

/-! Concrete scenario for C7's witness: one component with a 5-day lead
time, a 3-day safety-stock buffer, order created at the epoch; the
computed order date falls in the past and is clamped to now = 0. -/

def exC7Component : Component :=
  { id := 1, current_inventory := 0, min_stock_level := 0, max_stock_level := 0,
    lead_time_days := 5, unit_cost := 4, minimum_order_quantity := 0 }

def exC7DB : DBState :=
  { components := fun i => if i = 1 then some exC7Component else none,
    plans := [], transactions := [] }

def exC7Sess : Session := { committed := exC7DB, current := exC7DB }

def exC7HornTypes : Nat → Option HornType := fun i =>
  if i = 5 then some { id := 5, bom_components := [{ component_id := 1, quantity_per_horn := 1 }] }
  else none

def exC7Order : Order :=
  { id := 9, order_date := some 0, deadline := 7 * 86400,
    line_items := [{ horn_type_id := 5, quantity := 10 }] }

def exC7Config : ProductionConfig :=
  { daily_production_capacity := 1000, working_days_per_week := 7, safety_stock_days := 3 }

def exC7ExpectedPlan : MRPPlan :=
  { id := 0, order_id := 9, component_id := 1, total_required := 10, current_inventory := 0,
    net_requirement := 10, order_quantity := 10, order_date := 0,
    expected_delivery := 5 * 86400, estimated_cost := 40, status := "planned" }

/-- Witness for C7: the single plan of the concrete successful generation
is back-scheduled as claimed (its computed order date lies in the past and
is clamped to now = 0). -/
theorem claim_C7_witness :
    ∃ c : Component,
      (∃ k ∈ requirementKeys exC7HornTypes exC7Order.line_items,
        exC7Sess.current.components k = some c)
      ∧ exC7ExpectedPlan.component_id = c.id
      ∧ exC7ExpectedPlan.order_date
          = max ((exC7Order.order_date.getD 0 + exC7Config.safety_stock_days * 86400)
              - (c.lead_time_days + exC7Config.safety_stock_days) * 86400) 0
      ∧ exC7ExpectedPlan.expected_delivery
          = exC7ExpectedPlan.order_date + c.lead_time_days * 86400 :=
  claim_C7 exC7Sess exC7HornTypes exC7Config exC7Order 9 0 [exC7ExpectedPlan] (by
    have hceil : ⌈(10 : ℚ) / 7⌉ = 2 := by
      rw [Int.ceil_eq_iff]; constructor <;> norm_num
    norm_num [generate_mrp, exC7Sess, exC7HornTypes, exC7Config, exC7Order, exC7DB,
      exC7Component, exC7ExpectedPlan, requirementKeys, addKey, component_requirements,
      explodeLineItem, bumpRequirement, Function.update_apply, calculate_working_days,
      Order.total_quantity, computePlan, hceil, List.filterMap_cons, List.filterMap_nil,
      MRPPlan.mk.injEq])
    exC7ExpectedPlan (List.mem_singleton.mpr rfl)

/-- C9: updating a plan's status to `received` adds the plan's
order_quantity to the referenced component's inventory and appends exactly
one `receipt` transaction whose balance_after is the new inventory level;
updating to any other status changes no inventory and appends nothing. -/
theorem claim_C9 (db : DBState) (plan_id : Nat) (plan : MRPPlan) (c : Component)
    (hfind : db.plans.find? (fun p => p.id = plan_id) = some plan)
    (hc : db.components plan.component_id = some c) :
    (∃ db' plan', update_mrp_status db plan_id (some "received") = some (db', plan')
      ∧ db'.components plan.component_id
          = some { c with current_inventory := c.current_inventory + plan.order_quantity }
      ∧ ∃ txn, db'.transactions = db.transactions ++ [txn]
          ∧ txn.transaction_type = "receipt"
          ∧ txn.quantity = plan.order_quantity
          ∧ txn.balance_after = c.current_inventory + plan.order_quantity)
    ∧ ∀ s : String, s ≠ "received" →
        ∀ db' plan', update_mrp_status db plan_id (some s) = some (db', plan') →
          db'.components = db.components ∧ db'.transactions = db.transactions := by
  constructor
  · simp only [update_mrp_status, hfind, Option.getD_some, if_pos rfl, hc]
    refine ⟨_, _, rfl, ?_, _, rfl, rfl, rfl, rfl⟩
    simp [Function.update_same]
  · intro s hs db' plan' h
    simp only [update_mrp_status, hfind, Option.getD_some] at h
    rw [if_neg hs] at h
    simp only [Option.some.injEq, Prod.mk.injEq] at h
    obtain ⟨h1, -⟩ := h
    subst h1
    exact ⟨rfl, rfl⟩

/-! Concrete scenario for C9's witness: a plan for 500 units of component
1, which currently has 40 units on hand. -/

def exC9Plan : MRPPlan :=
  { id := 21, order_id := 9, component_id := 1, total_required := 540, current_inventory := 40,
    net_requirement := 500, order_quantity := 500, order_date := 0, expected_delivery := 0,
    estimated_cost := 500, status := "ordered" }

def exC9Component : Component :=
  { id := 1, current_inventory := 40, min_stock_level := 0, max_stock_level := 0,
    lead_time_days := 0, unit_cost := 1, minimum_order_quantity := 0 }

def exC9DB : DBState :=
  { components := fun i => if i = 1 then some exC9Component else none,
    plans := [exC9Plan], transactions := [] }

/-- Witness for C9: receiving the 500-unit plan raises inventory from 40
to 540 and appends one `receipt` transaction with balance_after 540. -/
theorem claim_C9_witness :
    (∃ db' plan', update_mrp_status exC9DB 21 (some "received") = some (db', plan')
      ∧ db'.components exC9Plan.component_id
          = some { exC9Component with
              current_inventory := exC9Component.current_inventory + exC9Plan.order_quantity }
      ∧ ∃ txn, db'.transactions = exC9DB.transactions ++ [txn]
          ∧ txn.transaction_type = "receipt"
          ∧ txn.quantity = exC9Plan.order_quantity
          ∧ txn.balance_after = exC9Component.current_inventory + exC9Plan.order_quantity)
    ∧ ∀ s : String, s ≠ "received" →
        ∀ db' plan', update_mrp_status exC9DB 21 (some s) = some (db', plan') →
          db'.components = exC9DB.components ∧ db'.transactions = exC9DB.transactions :=
  claim_C9 exC9DB 21 exC9Plan exC9Component (by rfl) (by rfl)

/-- C10: the receipt side effect fires on every call whose resulting
status is `received`, regardless of the prior status — in particular a
call whose body omits the status field, on a plan already `received`,
posts the inventory increment and a fresh transaction again — and no
status transition is ever rejected: any requested value is stored. -/
theorem claim_C10 (db : DBState) (plan_id : Nat) (plan : MRPPlan) (c : Component)
    (hfind : db.plans.find? (fun p => p.id = plan_id) = some plan)
    (hc : db.components plan.component_id = some c)
    (hst : plan.status = "received") :
    (∃ db' plan', update_mrp_status db plan_id none = some (db', plan')
      ∧ plan'.status = "received"
      ∧ db'.components plan.component_id
          = some { c with current_inventory := c.current_inventory + plan.order_quantity }
      ∧ ∃ txn, db'.transactions = db.transactions ++ [txn]
          ∧ txn.transaction_type = "receipt")
    ∧ ∀ new_status : Option String, ∃ db' plan',
        update_mrp_status db plan_id new_status = some (db', plan')
        ∧ plan'.status = new_status.getD plan.status := by
  constructor
  · simp only [update_mrp_status, hfind, Option.getD_none, hst, if_pos rfl, hc]
    refine ⟨_, _, rfl, rfl, ?_, _, rfl, rfl⟩
    simp [Function.update_same]
  · intro new_status
    simp only [update_mrp_status, hfind]
    by_cases hrec : new_status.getD plan.status = "received"
    · rw [if_pos hrec]
      simp only [hc]
      exact ⟨_, _, rfl, rfl⟩
    · rw [if_neg hrec]
      exact ⟨_, _, rfl, rfl⟩

/-! Concrete scenario for C10's witness: the plan is already `received`
and its component has 540 on hand (40 plus one earlier receipt). -/

def exC10Plan : MRPPlan :=
  { exC9Plan with status := "received" }

def exC10Component : Component :=
  { exC9Component with current_inventory := 540 }

def exC10DB : DBState :=
  { components := fun i => if i = 1 then some exC10Component else none,
    plans := [exC10Plan], transactions := [] }

/-- Witness for C10: a status-less update of an already-received plan
posts the receipt again (inventory 540 → 1040) and any requested status
is stored without rejection. -/
theorem claim_C10_witness :
    (∃ db' plan', update_mrp_status exC10DB 21 none = some (db', plan')
      ∧ plan'.status = "received"
      ∧ db'.components exC10Plan.component_id
          = some { exC10Component with
              current_inventory := exC10Component.current_inventory + exC10Plan.order_quantity }
      ∧ ∃ txn, db'.transactions = exC10DB.transactions ++ [txn]
          ∧ txn.transaction_type = "receipt")
    ∧ ∀ new_status : Option String, ∃ db' plan',
        update_mrp_status exC10DB 21 new_status = some (db', plan')
        ∧ plan'.status = new_status.getD exC10Plan.status :=
  claim_C10 exC10DB 21 exC10Plan exC10Component (by rfl) (by rfl) (by rfl)

end SPRA
